import Mathlib

/-!
# Verification of the dual HuffmanTable differential-fuzzing harness

Shallow embedding of `src/fuzz/librawspeed/decompressors/HuffmanTable/Dual.cpp`
from the rawspeed repository, together with models (from the specification) of
the external collaborators the harness drives: the `ByteStream` byte cursor and
the shared `createHuffmanTable` header parser.

Modelling conventions:
* C++ exceptions are values of `Exc`.  `rawspeed::IOException` derives from
  `rawspeed::RawspeedException` (witnessed inside the source itself by the
  catch-and-rethrow idiom in `workloop`, which first catches `IOException`
  and rethrows it precisely so that the following `RawspeedException` handler
  does not absorb it), so a `catch (const rawspeed::RawspeedException&)`
  clause handles *both* constructors of `Exc`.
* `assert` violations are abnormal process termination; they are modelled by
  dedicated result constructors (`StepRes.diverged`, `LoopExit.diverged`,
  `Outcome.aborted`) that no exception-handler branch ever converts back into
  a normal return.
* The decoder implementations (`IMPL0` / `IMPL1` template parameters) are out
  of scope for the spec; they are abstracted as an `HTImpl` record of
  validation predicates (used by the shared header parser) and an arbitrary
  `decode` function.
* The `while (true)` decode loop has no `break` and therefore no normal exit;
  correspondingly `LoopExit` has no normal-completion constructor, and the
  loop is run on explicit fuel, `none` meaning "still running after that many
  iterations".
-/

set_option autoImplicit false

namespace DualHuffman

/-- A thrown C++ exception.  `IOException msg` models `rawspeed::IOException`
(buffer exhaustion), `OtherException msg` models any `rawspeed::RawspeedException`
that is not an `IOException` (structural failures, `ThrowRSE`). -/
inductive Exc where
  | IOException (msg : String)
  | OtherException (msg : String)
deriving DecidableEq, Repr

/-- Does a `catch (const rawspeed::IOException&)` clause handle this exception? -/
def Exc.isIOException : Exc → Bool
  | .IOException _ => true
  | .OtherException _ => false

/-- Does a `catch (const rawspeed::RawspeedException&)` clause handle this
exception?  `IOException` publicly derives from `RawspeedException`, so the
answer is `true` for every exception this program can throw. -/
def Exc.isRawspeedException : Exc → Bool
  | _ => true

/-- The catch clause guarding each `createHuffmanTable` call in
`LLVMFuzzerTestOneInput` (lines 130 and 135): `catch (const
rawspeed::RawspeedException&)`.  Unlike the decode loop, this clause has no
preceding `IOException` rethrow, so it handles exhaustion exceptions too. -/
def constructionCatchHandles (e : Exc) : Bool :=
  e.isRawspeedException

/-- Modelled from the spec: the Byte Cursor primitive (§2, §4.1) — a read
cursor over an immutable byte buffer, exposing position, single-byte read and
skip, failing when insufficient bytes remain.  Bytes are `Nat`s reduced mod
256 on every read. -/
structure ByteStream where
  data : List Nat
  pos : Nat
deriving DecidableEq, Repr

/-- Modelled from the spec: `position() -> offset` of the Byte Cursor (§4.1). -/
def ByteStream.getPosition (bs : ByteStream) : Nat :=
  bs.pos

/-- Modelled from the spec: `readByte() -> byte | fails(BufferExhausted)`
(§4.1); the failure is an `IOException`. -/
def ByteStream.getByte (bs : ByteStream) : Except Exc (Nat × ByteStream) :=
  if bs.pos < bs.data.length then
    .ok (bs.data.getD bs.pos 0 % 256, { bs with pos := bs.pos + 1 })
  else
    .error (.IOException "getByte: buffer depleted")

/-- Modelled from the spec: `skip(n) -> () | fails(BufferExhausted)` (§4.1). -/
def ByteStream.skipBytes (bs : ByteStream) (n : Nat) : Except Exc ByteStream :=
  if bs.pos + n ≤ bs.data.length then
    .ok { bs with pos := bs.pos + n }
  else
    .error (.IOException "skipBytes: buffer depleted")

/-- Modelled from the spec: a bulk read of `n` bytes, used by the header
parser for the 16 counts and the code values (§6). -/
def ByteStream.getBuffer (bs : ByteStream) (n : Nat) :
    Except Exc (List Nat × ByteStream) :=
  if bs.pos + n ≤ bs.data.length then
    .ok (((bs.data.drop bs.pos).take n).map (fun b => b % 256),
         { bs with pos := bs.pos + n })
  else
    .error (.IOException "getBuffer: buffer depleted")

/-- The data a successful decoder construction extracts from the header
region: the 16 codes-per-length counts, the code values, and the two
trailing flag bytes `fixDNGBug16` / `fullDecode` (spec §6). -/
structure HTableData where
  nCodesPerLength : List Nat
  codeValues : List Nat
  fixDNGBug16 : Bool
  fullDecode : Bool
deriving DecidableEq, Repr

/-- The three interchangeable bit-reading strategies of spec §4.3. -/
inductive PumpKind where
  | BitPumpMSB
  | BitPumpMSB32
  | BitPumpJPEG
deriving DecidableEq, Repr

/-- A bit reader: the selected strategy wrapping a byte cursor, plus an
opaque internal refill state consumed only by the (abstract) decoders. -/
structure Pump where
  kind : PumpKind
  bs : ByteStream
  state : Nat
deriving DecidableEq, Repr

/-- One of the two decoder implementations (`IMPL0` / `IMPL1`), abstracted:
implementation-specific structural-validation predicates hooked into the
shared header parser, and an arbitrary decode operation on a bit pump.
All of these may fail only by throwing (`Except.error`); an external
component never raises the harness's assert-based divergence signal. -/
structure HTImpl where
  validCounts : List Nat → Bool
  validValues : List Nat → List Nat → Bool
  validSetup : HTableData → Bool
  decode : HTableData → Bool → Pump → Except Exc (Int × Pump)

/-- Modelled from the spec: `createHuffmanTable`
(`decompressors/HuffmanTable/Common.h`, not under `src/`): the header parser
shared by both implementations.  Per spec §6 it consumes, through the byte
cursor, 16 codes-per-length count bytes, then one byte per counted code
value, then the `fixDNGBug16` and `fullDecode` flag bytes — so a successful
construction consumes at least 19 bytes (harness comment at lines 146–147).
An all-zero count table is a structural (`RawspeedException`) rejection —
spec §8 Scenario A — raised before any value byte is read; the remaining
implementation-specific structural checks are the abstract `valid*`
predicates of `HTImpl`, which never consume bytes. -/
def createHuffmanTable (impl : HTImpl) (bs : ByteStream) :
    Except Exc (HTableData × ByteStream) :=
  match bs.getBuffer 16 with
  | .error e => .error e
  | .ok (counts, bs1) =>
    if counts.sum = 0 then
      .error (.OtherException "Codes-per-length table is empty")
    else if impl.validCounts counts then
      match bs1.getBuffer counts.sum with
      | .error e => .error e
      | .ok (values, bs2) =>
        if impl.validValues counts values then
          match bs2.getByte with
          | .error e => .error e
          | .ok (b1, bs3) =>
            match bs3.getByte with
            | .error e => .error e
            | .ok (b2, bs4) =>
              if impl.validSetup ⟨counts, values, b1 != 0, b2 != 0⟩ then
                .ok (⟨counts, values, b1 != 0, b2 != 0⟩, bs4)
              else
                .error (.OtherException "table setup failed")
        else
          .error (.OtherException "invalid code values")
    else
      .error (.OtherException "invalid codes-per-length table")

/-- Did the construction attempt succeed?  (`failureN` in the source is the
negation: it is set by the `catch (const rawspeed::RawspeedException&)`
clause, which `constructionCatchHandles` shows absorbs every exception,
exhaustion included.) -/
def constructionSucceeded (r : Except Exc (HTableData × ByteStream)) : Bool :=
  match r with
  | .ok _ => true
  | .error _ => false

/-- Result of one iteration of the body of `workloop` (lines 59–95). -/
inductive StepRes where
  /-- Both sides decoded successfully and agreed; loop with updated pumps. -/
  | next (bits0 bits1 : Pump)
  /-- A C++ exception leaves the loop: a rethrown `IOException`, or the
  `ThrowRSE("Failure detected")` raised when both sides failed. -/
  | thrown (e : Exc)
  /-- An `assert` fired: abnormal termination, tagged with the assert text. -/
  | diverged (check : String)
deriving DecidableEq, Repr

/-- One iteration of the `while (true)` body of `workloop`: decode on side 0
(rethrowing `IOException`, recording any other `RawspeedException` as
`failure0`), then identically on side 1, then
`assert(failure0 == failure1)`, then `ThrowRSE("Failure detected")` if any
side failed, then `assert(decoded0 == decoded1)`. -/
def workstep (impl0 impl1 : HTImpl) (t0 t1 : HTableData) (isFullDecode : Bool)
    (bits0 bits1 : Pump) : StepRes :=
  match impl0.decode t0 isFullDecode bits0 with
  | .error (.IOException m) => .thrown (.IOException m)
  | .error (.OtherException _) =>
    match impl1.decode t1 isFullDecode bits1 with
    | .error (.IOException m) => .thrown (.IOException m)
    | .error (.OtherException _) => .thrown (.OtherException "Failure detected")
    | .ok _ => .diverged "failure0 == failure1"
  | .ok (decoded0, bits0x) =>
    match impl1.decode t1 isFullDecode bits1 with
    | .error (.IOException m) => .thrown (.IOException m)
    | .error (.OtherException _) => .diverged "failure0 == failure1"
    | .ok (decoded1, bits1x) =>
      if decoded0 = decoded1 then .next bits0x bits1x
      else .diverged "decoded0 == decoded1"

/-- How the decode loop can end.  `while (true)` has no `break`, so there is
no normal-completion constructor: the loop either throws or hits a failing
`assert` (or keeps running, which fuel models as `Option.none`). -/
inductive LoopExit where
  | thrown (e : Exc)
  | diverged (check : String)
deriving DecidableEq, Repr

/-- The `while (true)` loop of `workloop`, run on explicit fuel;
`none` means the loop is still running after `fuel` iterations. -/
def workloopAux (impl0 impl1 : HTImpl) (t0 t1 : HTableData)
    (isFullDecode : Bool) : Nat → Pump → Pump → Option LoopExit
  | 0, _, _ => none
  | fuel + 1, bits0, bits1 =>
    match workstep impl0 impl1 t0 t1 isFullDecode bits0 bits1 with
    | .next b0 b1 => workloopAux impl0 impl1 t0 t1 isFullDecode fuel b0 b1
    | .thrown e => some (.thrown e)
    | .diverged c => some (.diverged c)

/-- `workloop` (lines 53–96): builds one pump per side — same strategy, one
per byte stream — and runs the decode loop. -/
def workloop (impl0 impl1 : HTImpl) (t0 t1 : HTableData) (kind : PumpKind)
    (isFullDecode : Bool) (fuel : Nat) (bs0 bs1 : ByteStream) :
    Option LoopExit :=
  workloopAux impl0 impl1 t0 t1 isFullDecode fuel
    ⟨kind, bs0, 0⟩ ⟨kind, bs1, 0⟩

/-- `checkHuffmanTable` (lines 98–108): asserts the cursor positions and the
two full-decode flags agree, then runs `workloop` with `IsFullDecode`
instantiated to `ht0.isFullDecode()` — one fixed mode for the whole loop. -/
def checkHuffmanTable (impl0 impl1 : HTImpl) (kind : PumpKind) (fuel : Nat)
    (bs0 bs1 : ByteStream) (t0 t1 : HTableData) : Option LoopExit :=
  if bs0.getPosition ≠ bs1.getPosition then
    some (.diverged "bs0.getPosition() == bs1.getPosition()")
  else if t0.fullDecode ≠ t1.fullDecode then
    some (.diverged "ht0.isFullDecode() == ht1.isFullDecode()")
  else if t0.fullDecode then
    workloop impl0 impl1 t0 t1 kind true fuel bs0 bs1
  else
    workloop impl0 impl1 t0 t1 kind false fuel bs0 bs1

/-- Observable outcome of one harness invocation: a normal return with an
exit code, or abnormal termination from a failing `assert`, tagged with the
violated check. -/
inductive Outcome where
  | ret (code : Int)
  | aborted (check : String)
deriving DecidableEq, Repr

/-- The handling, inside `LLVMFuzzerTestOneInput`, of everything that comes
back out of `checkHuffmanTable`: a thrown `RawspeedException` (exhaustion or
"Failure detected") is absorbed by the outermost handler at line 166 and
becomes `return 0`; an assert-based divergence is not an exception and
terminates the process. -/
def runPump (impl0 impl1 : HTImpl) (fuel : Nat) (t0 t1 : HTableData)
    (kind : PumpKind) (bs0 bs1 : ByteStream) : Option Outcome :=
  match checkHuffmanTable impl0 impl1 kind fuel bs0 bs1 t0 t1 with
  | none => none
  | some (.thrown _) => some (.ret 0)
  | some (.diverged c) => some (.aborted c)

/-- The `switch (bs0.getByte())` strategy dispatch (lines 153–165): selector
0/1/2 run both sides with the corresponding pump; any other selector is
`ThrowRSE("Unknown bit pump")`, absorbed by the outermost handler into
`return 0`. -/
def selectPump (impl0 impl1 : HTImpl) (fuel : Nat) (t0 t1 : HTableData)
    (sel : Nat) (bs0 bs1 : ByteStream) : Option Outcome :=
  match sel with
  | 0 => runPump impl0 impl1 fuel t0 t1 .BitPumpMSB bs0 bs1
  | 1 => runPump impl0 impl1 fuel t0 t1 .BitPumpMSB32 bs0 bs1
  | 2 => runPump impl0 impl1 fuel t0 t1 .BitPumpJPEG bs0 bs1
  | _ => some (.ret 0)

/-- `LLVMFuzzerTestOneInput` (lines 112–171): build two cursors over the same
buffer; attempt both constructions, each guarded by a
`catch (const rawspeed::RawspeedException&)` clause setting `failureN`;
`assert(failure0 == failure1)`; return 0 if both failed; assert cursor
alignment and the ≥ 19 consumed bytes; skip one byte on cursor 1, read the
selector byte from cursor 0 (an `IOException` there reaches the outermost
handler: `return 0`), and dispatch.  `__builtin_unreachable()` at line 170
is sound because `checkHuffmanTable` never returns normally, which the
model states by `LoopExit` having no normal-completion constructor. -/
def LLVMFuzzerTestOneInput (impl0 impl1 : HTImpl) (fuel : Nat)
    (Data : List Nat) : Option Outcome :=
  let bs0 : ByteStream := ⟨Data, 0⟩
  let bs1 : ByteStream := ⟨Data, 0⟩
  match createHuffmanTable impl0 bs0, createHuffmanTable impl1 bs1 with
  | .error _, .error _ => some (.ret 0)
  | .error _, .ok _ => some (.aborted "failure0 == failure1")
  | .ok _, .error _ => some (.aborted "failure0 == failure1")
  | .ok (t0, cs0), .ok (t1, cs1) =>
    if cs0.getPosition ≠ cs1.getPosition then
      some (.aborted "bs0.getPosition() == bs1.getPosition()")
    else if cs0.getPosition < 19 then
      some (.aborted "bs0.getPosition() >= 19")
    else
      match cs1.skipBytes 1 with
      | .error _ => some (.ret 0)
      | .ok ds1 =>
        match cs0.getByte with
        | .error _ => some (.ret 0)
        | .ok (sel, ds0) => selectPump impl0 impl1 fuel t0 t1 sel ds0 ds1

/-! ## Concrete instances used to exercise the model -/

/-- An implementation whose structural checks all pass and whose decode step
always fails structurally. -/
def implAcceptAll : HTImpl where
  validCounts := fun _ => true
  validValues := fun _ _ => true
  validSetup := fun _ => true
  decode := fun _ _ _ => .error (.OtherException "no valid code")

/-- An implementation that structurally rejects every codes-per-length
table. -/
def implRejectCounts : HTImpl where
  validCounts := fun _ => false
  validValues := fun _ _ => true
  validSetup := fun _ => true
  decode := fun _ _ _ => .error (.OtherException "no valid code")

/-- An implementation that always decodes the constant `v` without touching
the pump. -/
def implDecodeConst (v : Int) : HTImpl where
  validCounts := fun _ => true
  validValues := fun _ _ => true
  validSetup := fun _ => true
  decode := fun _ _ p => .ok (v, p)

/-- An implementation whose decode step always exhausts the reader. -/
def implDecodeDepleted : HTImpl where
  validCounts := fun _ => true
  validValues := fun _ _ => true
  validSetup := fun _ => true
  decode := fun _ _ _ => .error (.IOException "stream depleted")

/-- A 20-byte buffer: one single-bit code, code value 5, `fixDNGBug16 = 0`,
`fullDecode = 1`, selector byte 0 (spec §8 Scenario B header). -/
def goodData : List Nat :=
  [1, 0, 0, 0, 0, 0, 0, 0, 0, 0, 0, 0, 0, 0, 0, 0, 5, 0, 1, 0]

/-- The table `createHuffmanTable` extracts from `goodData`. -/
def goodTable : HTableData :=
  ⟨[1, 0, 0, 0, 0, 0, 0, 0, 0, 0, 0, 0, 0, 0, 0, 0], [5], false, true⟩

/-- A pump over an empty stream, for exercising the abstract decode steps. -/
def somePump : Pump :=
  ⟨.BitPumpMSB, ⟨[], 0⟩, 0⟩

/-- `goodTable` with the full-decode mode flag turned off. -/
def tableNotFull : HTableData :=
  { goodTable with fullDecode := false }

/-- A 17-byte buffer whose counts announce 16 code values but whose value
region is truncated: construction exhausts the buffer. -/
def truncatedData : List Nat :=
  [1, 1, 1, 1, 1, 1, 1, 1, 1, 1, 1, 1, 1, 1, 1, 1, 5]

example :
    createHuffmanTable implAcceptAll ⟨goodData, 0⟩ =
      .ok (goodTable, ⟨goodData, 19⟩) := rfl

example :
    LLVMFuzzerTestOneInput implAcceptAll implAcceptAll 3 goodData =
      some (.ret 0) := by decide

example :
    LLVMFuzzerTestOneInput implRejectCounts implAcceptAll 3 goodData =
      some (.aborted "failure0 == failure1") := by decide

example :
    LLVMFuzzerTestOneInput (implDecodeConst 5) (implDecodeConst 7) 3 goodData =
      some (.aborted "decoded0 == decoded1") := by decide

example :
    LLVMFuzzerTestOneInput (implDecodeConst 5) (implDecodeConst 5) 3 goodData =
      none := by decide

example :
    LLVMFuzzerTestOneInput implDecodeDepleted implDecodeDepleted 3 goodData =
      some (.ret 0) := by decide

example :
    createHuffmanTable implAcceptAll ⟨List.replicate 16 0, 0⟩ =
      .error (.OtherException "Codes-per-length table is empty") := rfl

example :
    LLVMFuzzerTestOneInput implAcceptAll implAcceptAll 3 [] =
      some (.ret 0) := by decide

/-! ## Inversion lemmas for the byte-cursor operations -/

theorem getBuffer_ok {bs : ByteStream} {n : Nat} {l : List Nat}
    {c : ByteStream} (h : bs.getBuffer n = .ok (l, c)) :
    l = ((bs.data.drop bs.pos).take n).map (fun b => b % 256) ∧
      c = ⟨bs.data, bs.pos + n⟩ ∧ bs.pos + n ≤ bs.data.length := by
  unfold ByteStream.getBuffer at h
  split at h
  · next hle => cases h; exact ⟨rfl, rfl, hle⟩
  · cases h

theorem getByte_ok {bs : ByteStream} {b : Nat} {c : ByteStream}
    (h : bs.getByte = .ok (b, c)) :
    b = bs.data.getD bs.pos 0 % 256 ∧
      c = ⟨bs.data, bs.pos + 1⟩ ∧ bs.pos < bs.data.length := by
  unfold ByteStream.getByte at h
  split at h
  · next hlt => cases h; exact ⟨rfl, rfl, hlt⟩
  · cases h

theorem skipBytes_ok {bs : ByteStream} {n : Nat} {c : ByteStream}
    (h : bs.skipBytes n = .ok c) :
    c = ⟨bs.data, bs.pos + n⟩ ∧ bs.pos + n ≤ bs.data.length := by
  unfold ByteStream.skipBytes at h
  split at h
  · next hle => cases h; exact ⟨rfl, hle⟩
  · cases h

/-! ## Inversion lemmas for the header parser -/

/-- A successful construction is completely determined by the cursor it reads
from, independently of the implementation: the counts are the first 16 bytes,
the values the next `sum` bytes, the flags the two bytes after, and exactly
`16 + sum + 2 ≥ 19` bytes are consumed. -/
theorem createHuffmanTable_ok {impl : HTImpl} {bs : ByteStream}
    {t : HTableData} {c : ByteStream}
    (h : createHuffmanTable impl bs = .ok (t, c)) :
    t.nCodesPerLength = ((bs.data.drop bs.pos).take 16).map (fun b => b % 256) ∧
      t.codeValues =
        ((bs.data.drop (bs.pos + 16)).take t.nCodesPerLength.sum).map
          (fun b => b % 256) ∧
      t.fixDNGBug16 =
        (bs.data.getD (bs.pos + 16 + t.nCodesPerLength.sum) 0 % 256 != 0) ∧
      t.fullDecode =
        (bs.data.getD (bs.pos + 16 + t.nCodesPerLength.sum + 1) 0 % 256 != 0) ∧
      c = ⟨bs.data, bs.pos + 16 + t.nCodesPerLength.sum + 2⟩ ∧
      1 ≤ t.nCodesPerLength.sum ∧
      bs.pos + 16 + t.nCodesPerLength.sum + 2 ≤ bs.data.length := by
  unfold createHuffmanTable at h
  split at h
  · cases h
  next counts bs1 h16 =>
    split at h
    · cases h
    next hsum =>
      split at h
      next hvc =>
        split at h
        · cases h
        next values bs2 hvals =>
          split at h
          next hvv =>
            split at h
            · cases h
            next b1 bs3 hb1 =>
              split at h
              · cases h
              next b2 bs4 hb2 =>
                split at h
                next hsetup =>
                  cases h
                  obtain ⟨hc16, hbs1, hle16⟩ := getBuffer_ok h16
                  subst hbs1
                  obtain ⟨hcv, hbs2, hlev⟩ := getBuffer_ok hvals
                  subst hbs2
                  obtain ⟨hb1v, hbs3, hlt1⟩ := getByte_ok hb1
                  subst hbs3
                  obtain ⟨hb2v, hbs4, hlt2⟩ := getByte_ok hb2
                  subst hbs4
                  subst hc16
                  subst hcv
                  subst hb1v
                  subst hb2v
                  dsimp only at hlev hlt1 hlt2
                  refine ⟨rfl, rfl, rfl, rfl, rfl, ?_, ?_⟩
                  all_goals dsimp only
                  all_goals omega
                next hsetup => cases h
          next hvv => cases h
      next hvc => cases h

/-- The two sides parse identical header bytes into identical tables and
leave their cursors at the same position: agreement of successful
constructions is forced by the shared byte content. -/
theorem createHuffmanTable_pair_ok {impl0 impl1 : HTImpl} {bs : ByteStream}
    {t0 t1 : HTableData} {c0 c1 : ByteStream}
    (h0 : createHuffmanTable impl0 bs = .ok (t0, c0))
    (h1 : createHuffmanTable impl1 bs = .ok (t1, c1)) :
    t0 = t1 ∧ c0 = c1 := by
  obtain ⟨a0, v0, f0, g0, hc0, _, _⟩ := createHuffmanTable_ok h0
  obtain ⟨a1, v1, f1, g1, hc1, _, _⟩ := createHuffmanTable_ok h1
  have hn : t0.nCodesPerLength = t1.nCodesPerLength := a0.trans a1.symm
  have hsum : t0.nCodesPerLength.sum = t1.nCodesPerLength.sum := by rw [hn]
  have hv : t0.codeValues = t1.codeValues := by rw [v0, v1, hsum]
  have hf : t0.fixDNGBug16 = t1.fixDNGBug16 := by rw [f0, f1, hsum]
  have hg : t0.fullDecode = t1.fullDecode := by rw [g0, g1, hsum]
  refine ⟨?_, ?_⟩
  · cases t0; cases t1
    simp_all
  · rw [hc0, hc1, hsum]

/-- An input from which any implementation constructs successfully supplies
every byte the shared parser reads, so no implementation's construction can
fail with an exhaustion (`IOException`) on the same input. -/
theorem createHuffmanTable_ok_no_io {impl0 impl1 : HTImpl} {bs : ByteStream}
    {t : HTableData} {c : ByteStream} {m : String}
    (h1 : createHuffmanTable impl1 bs = .ok (t, c)) :
    createHuffmanTable impl0 bs ≠ .error (.IOException m) := by
  intro h0
  obtain ⟨hcnt, _, _, _, _, hs, hle⟩ := createHuffmanTable_ok h1
  rw [hcnt] at hs hle
  unfold createHuffmanTable at h0
  split at h0
  · next e h16 =>
    unfold ByteStream.getBuffer at h16
    rw [if_pos (by omega)] at h16
    cases h16
  next counts bs1 h16 =>
    obtain ⟨hcv, hbs1, _⟩ := getBuffer_ok h16
    subst hbs1
    subst hcv
    split at h0
    · simp at h0
    next hsum =>
      split at h0
      next hvc =>
        split at h0
        · next e hv =>
          unfold ByteStream.getBuffer at hv
          rw [if_pos (by dsimp only; omega)] at hv
          cases hv
        next values bs2 hvals =>
          obtain ⟨hvv2, hbs2, _⟩ := getBuffer_ok hvals
          subst hbs2
          split at h0
          next hvv =>
            split at h0
            · next e hb =>
              unfold ByteStream.getByte at hb
              rw [if_pos (by dsimp only; omega)] at hb
              cases hb
            next b1 bs3 hb1 =>
              obtain ⟨hb1v, hbs3, _⟩ := getByte_ok hb1
              subst hbs3
              split at h0
              · next e hb =>
                unfold ByteStream.getByte at hb
                rw [if_pos (by dsimp only; omega)] at hb
                cases hb
              next b2 bs4 hb2 =>
                split at h0
                · cases h0
                · simp at h0
          next hvv => simp at h0
      next hvc => simp at h0

/-- With fewer than 19 readable bytes ahead of the cursor, no construction
can succeed. -/
theorem createHuffmanTable_short {impl : HTImpl} {bs : ByteStream}
    (hshort : bs.data.length < bs.pos + 19) {t : HTableData}
    {c : ByteStream} : createHuffmanTable impl bs ≠ .ok (t, c) := by
  intro h
  obtain ⟨_, _, _, _, _, hs, hle⟩ := createHuffmanTable_ok h
  omega

/-! ## Characterization of the entry point's control flow -/

/-- Both construction attempts threw (each absorbed by its
`catch (const rawspeed::RawspeedException&)` clause):
`failure0 == failure1` holds and the invocation returns 0. -/
theorem entry_both_fail {impl0 impl1 : HTImpl} {fuel : Nat} {data : List Nat}
    {e0 e1 : Exc}
    (h0 : createHuffmanTable impl0 ⟨data, 0⟩ = .error e0)
    (h1 : createHuffmanTable impl1 ⟨data, 0⟩ = .error e1) :
    LLVMFuzzerTestOneInput impl0 impl1 fuel data = some (.ret 0) := by
  simp only [LLVMFuzzerTestOneInput, h0, h1]

/-- Exactly one construction attempt failed: `assert(failure0 == failure1)`
fires and the process aborts. -/
theorem entry_construction_mismatch {impl0 impl1 : HTImpl} {fuel : Nat}
    {data : List Nat}
    (h : constructionSucceeded (createHuffmanTable impl0 ⟨data, 0⟩) ≠
      constructionSucceeded (createHuffmanTable impl1 ⟨data, 0⟩)) :
    LLVMFuzzerTestOneInput impl0 impl1 fuel data =
      some (.aborted "failure0 == failure1") := by
  cases h0 : createHuffmanTable impl0 (⟨data, 0⟩ : ByteStream) with
  | error e0 =>
    cases h1 : createHuffmanTable impl1 (⟨data, 0⟩ : ByteStream) with
    | error e1 => rw [h0, h1] at h; simp [constructionSucceeded] at h
    | ok r1 => simp only [LLVMFuzzerTestOneInput, h0, h1]
  | ok r0 =>
    cases h1 : createHuffmanTable impl1 (⟨data, 0⟩ : ByteStream) with
    | error e1 =>
      obtain ⟨t0, c0⟩ := r0
      simp only [LLVMFuzzerTestOneInput, h0, h1]
    | ok r1 => rw [h0, h1] at h; simp [constructionSucceeded] at h

/-- Both constructions succeeded: the two parses agree, the alignment and
minimum-length asserts pass, and the invocation proceeds to the
selector-byte handling — reading one byte from cursor 0 and skipping one
byte on cursor 1 — then dispatches; if the selector byte is beyond the end
of the buffer, the `IOException` reaches the outermost handler and the
invocation returns 0. -/
theorem entry_ok_dispatch {impl0 impl1 : HTImpl} {fuel : Nat}
    {data : List Nat} {t t' : HTableData} {c c' : ByteStream}
    (h0 : createHuffmanTable impl0 ⟨data, 0⟩ = .ok (t, c))
    (h1 : createHuffmanTable impl1 ⟨data, 0⟩ = .ok (t', c')) :
    LLVMFuzzerTestOneInput impl0 impl1 fuel data =
      if c.pos < data.length then
        selectPump impl0 impl1 fuel t t' (data.getD c.pos 0 % 256)
          ⟨data, c.pos + 1⟩ ⟨data, c.pos + 1⟩
      else some (.ret 0) := by
  obtain ⟨hteq, hceq⟩ := createHuffmanTable_pair_ok h0 h1
  subst hteq
  subst hceq
  obtain ⟨hcnt, _, _, _, hc, hs, hle⟩ := createHuffmanTable_ok h0
  simp only [LLVMFuzzerTestOneInput, h0, h1]
  rw [if_neg (by simp)]
  rw [if_neg (by simp only [ByteStream.getPosition]; rw [hc]; dsimp only; omega)]
  by_cases hlt : c.pos < data.length
  · have hdata : c.data = data := by rw [hc]
    have hskip : c.skipBytes 1 = .ok ⟨data, c.pos + 1⟩ := by
      unfold ByteStream.skipBytes
      rw [hdata, if_pos (by omega)]
    have hbyte : c.getByte = .ok (data.getD c.pos 0 % 256, ⟨data, c.pos + 1⟩) := by
      unfold ByteStream.getByte
      rw [hdata, if_pos (by omega)]
    simp only [hskip, hbyte]
    rw [if_pos hlt]
  · have hdata : c.data = data := by rw [hc]
    have hskip : c.skipBytes 1 = .error (.IOException "skipBytes: buffer depleted") := by
      unfold ByteStream.skipBytes
      rw [hdata, if_neg (by omega)]
    simp only [hskip]
    rw [if_neg hlt]

/-! ## Behavior of the decode loop and its surrounding handlers -/

theorem workloopAux_next {impl0 impl1 : HTImpl} {t0 t1 : HTableData}
    {m : Bool} {b0 b1 b0x b1x : Pump} {n : Nat}
    (h : workstep impl0 impl1 t0 t1 m b0 b1 = .next b0x b1x) :
    workloopAux impl0 impl1 t0 t1 m (n + 1) b0 b1 =
      workloopAux impl0 impl1 t0 t1 m n b0x b1x := by
  conv_lhs => rw [workloopAux]
  rw [h]

theorem workloopAux_thrown {impl0 impl1 : HTImpl} {t0 t1 : HTableData}
    {m : Bool} {b0 b1 : Pump} {n : Nat} {e : Exc}
    (h : workstep impl0 impl1 t0 t1 m b0 b1 = .thrown e) :
    workloopAux impl0 impl1 t0 t1 m (n + 1) b0 b1 = some (.thrown e) := by
  conv_lhs => rw [workloopAux]
  rw [h]

theorem workloopAux_diverged {impl0 impl1 : HTImpl} {t0 t1 : HTableData}
    {m : Bool} {b0 b1 : Pump} {n : Nat} {ch : String}
    (h : workstep impl0 impl1 t0 t1 m b0 b1 = .diverged ch) :
    workloopAux impl0 impl1 t0 t1 m (n + 1) b0 b1 =
      some (.diverged ch) := by
  conv_lhs => rw [workloopAux]
  rw [h]

theorem checkHuffmanTable_flag_mismatch {impl0 impl1 : HTImpl}
    {kind : PumpKind} {fuel : Nat} {bs0 bs1 : ByteStream}
    {t0 t1 : HTableData} (hpos : bs0.getPosition = bs1.getPosition)
    (hflag : t0.fullDecode ≠ t1.fullDecode) :
    checkHuffmanTable impl0 impl1 kind fuel bs0 bs1 t0 t1 =
      some (.diverged "ht0.isFullDecode() == ht1.isFullDecode()") := by
  unfold checkHuffmanTable
  rw [if_neg (by simp [hpos]), if_pos hflag]

theorem checkHuffmanTable_run {impl0 impl1 : HTImpl} {kind : PumpKind}
    {fuel : Nat} {bs0 bs1 : ByteStream} {t0 t1 : HTableData}
    (hpos : bs0.getPosition = bs1.getPosition)
    (hflag : t0.fullDecode = t1.fullDecode) :
    checkHuffmanTable impl0 impl1 kind fuel bs0 bs1 t0 t1 =
      workloop impl0 impl1 t0 t1 kind t0.fullDecode fuel bs0 bs1 := by
  unfold checkHuffmanTable
  rw [if_neg (by simp [hpos]), if_neg (by simp [hflag])]
  by_cases hf : t0.fullDecode
  · rw [if_pos hf, hf]
  · rw [if_neg hf, (by simpa using hf : t0.fullDecode = false)]

theorem runPump_diverged {impl0 impl1 : HTImpl} {fuel : Nat}
    {t0 t1 : HTableData} {kind : PumpKind} {bs0 bs1 : ByteStream}
    {ch : String}
    (h : checkHuffmanTable impl0 impl1 kind fuel bs0 bs1 t0 t1 =
      some (.diverged ch)) :
    runPump impl0 impl1 fuel t0 t1 kind bs0 bs1 = some (.aborted ch) := by
  unfold runPump
  rw [h]

theorem runPump_thrown {impl0 impl1 : HTImpl} {fuel : Nat}
    {t0 t1 : HTableData} {kind : PumpKind} {bs0 bs1 : ByteStream} {e : Exc}
    (h : checkHuffmanTable impl0 impl1 kind fuel bs0 bs1 t0 t1 =
      some (.thrown e)) :
    runPump impl0 impl1 fuel t0 t1 kind bs0 bs1 = some (.ret 0) := by
  unfold runPump
  rw [h]

theorem runPump_ret {impl0 impl1 : HTImpl} {fuel : Nat}
    {t0 t1 : HTableData} {kind : PumpKind} {bs0 bs1 : ByteStream} {n : Int}
    (h : runPump impl0 impl1 fuel t0 t1 kind bs0 bs1 = some (.ret n)) :
    n = 0 := by
  unfold runPump at h
  split at h
  · cases h
  · cases h
    rfl
  · simp at h

theorem selectPump_ret {impl0 impl1 : HTImpl} {fuel : Nat}
    {t0 t1 : HTableData} {sel : Nat} {bs0 bs1 : ByteStream} {n : Int}
    (h : selectPump impl0 impl1 fuel t0 t1 sel bs0 bs1 = some (.ret n)) :
    n = 0 := by
  rcases sel with _ | _ | _ | k
  · exact runPump_ret h
  · exact runPump_ret h
  · exact runPump_ret h
  · have h2 : (some (Outcome.ret 0) : Option Outcome) = some (.ret n) := h
    cases h2
    rfl

/-! ## The claims -/

/-- **C1.**  Whenever an equivalence invariant is violated — the two sides'
construction success/failure classification differs, their full-decode mode
flags differ, or a decode step diverges in classification or value (a
`workstep` divergence) — the harness produces the abnormal-termination
outcome `Outcome.aborted`, and no layer of the call chain (the decode loop,
the exception handling around it, or the entry point with its outermost
`catch`) downgrades the divergence to a normal return: the entry point never
returns normally in that case. -/
theorem C1_divergence_reaches_abort (impl0 impl1 : HTImpl) (fuel : Nat)
    (data : List Nat) :
    (constructionSucceeded (createHuffmanTable impl0 ⟨data, 0⟩) ≠
        constructionSucceeded (createHuffmanTable impl1 ⟨data, 0⟩) →
      LLVMFuzzerTestOneInput impl0 impl1 fuel data =
        some (.aborted "failure0 == failure1")) ∧
    (∀ (t0 t1 : HTableData) (kind : PumpKind) (bs0 bs1 : ByteStream),
      bs0.getPosition = bs1.getPosition → t0.fullDecode ≠ t1.fullDecode →
      checkHuffmanTable impl0 impl1 kind fuel bs0 bs1 t0 t1 =
        some (.diverged "ht0.isFullDecode() == ht1.isFullDecode()")) ∧
    (∀ (t0 t1 : HTableData) (m : Bool) (b0 b1 : Pump) (n : Nat)
        (ch : String),
      workstep impl0 impl1 t0 t1 m b0 b1 = .diverged ch →
      workloopAux impl0 impl1 t0 t1 m (n + 1) b0 b1 =
        some (.diverged ch)) ∧
    (∀ (t0 t1 : HTableData) (kind : PumpKind) (bs0 bs1 : ByteStream)
        (ch : String),
      checkHuffmanTable impl0 impl1 kind fuel bs0 bs1 t0 t1 =
        some (.diverged ch) →
      runPump impl0 impl1 fuel t0 t1 kind bs0 bs1 = some (.aborted ch)) ∧
    (∀ (t t' : HTableData) (c c' : ByteStream) (ch : String),
      createHuffmanTable impl0 ⟨data, 0⟩ = .ok (t, c) →
      createHuffmanTable impl1 ⟨data, 0⟩ = .ok (t', c') →
      c.pos < data.length →
      selectPump impl0 impl1 fuel t t' (data.getD c.pos 0 % 256)
          ⟨data, c.pos + 1⟩ ⟨data, c.pos + 1⟩ = some (.aborted ch) →
      LLVMFuzzerTestOneInput impl0 impl1 fuel data =
        some (.aborted ch)) := by
  refine ⟨?_, ?_, ?_, ?_, ?_⟩
  · exact fun h => entry_construction_mismatch h
  · exact fun t0 t1 kind bs0 bs1 hpos hflag =>
      checkHuffmanTable_flag_mismatch hpos hflag
  · exact fun t0 t1 m b0 b1 n ch h => workloopAux_diverged h
  · exact fun t0 t1 kind bs0 bs1 ch h => runPump_diverged h
  · intro t t' c c' ch h0 h1 hlt hsel
    rw [entry_ok_dispatch h0 h1, if_pos hlt]
    exact hsel

/-- Witness for C1: with an implementation pair that disagrees on header
acceptance, the entry point aborts on `failure0 == failure1`. -/
theorem C1_witness :
    LLVMFuzzerTestOneInput implRejectCounts implAcceptAll 3 goodData =
      some (.aborted "failure0 == failure1") :=
  (C1_divergence_reaches_abort implRejectCounts implAcceptAll 3 goodData).1
    (by decide)

/-- **C2.**  In every decode-loop iteration in which both decoders' decode
calls succeed, the two decoded values are compared: equal values continue
the loop with the advanced pumps, unequal values are the detected divergence
`decoded0 == decoded1`. -/
theorem C2_decoded_values_compared (impl0 impl1 : HTImpl)
    (t0 t1 : HTableData) (m : Bool) (b0 b1 : Pump) (d0 d1 : Int)
    (b0x b1x : Pump)
    (h0 : impl0.decode t0 m b0 = .ok (d0, b0x))
    (h1 : impl1.decode t1 m b1 = .ok (d1, b1x)) :
    workstep impl0 impl1 t0 t1 m b0 b1 =
      if d0 = d1 then .next b0x b1x
      else .diverged "decoded0 == decoded1" := by
  unfold workstep
  rw [h0, h1]

/-- Witness for C2: decoders returning 5 and 7 diverge. -/
theorem C2_witness :
    workstep (implDecodeConst 5) (implDecodeConst 7) goodTable goodTable true
        somePump somePump = .diverged "decoded0 == decoded1" := by
  have h := C2_decoded_values_compared (implDecodeConst 5) (implDecodeConst 7)
      goodTable goodTable true somePump somePump 5 7 somePump somePump rfl rfl
  rw [if_neg (by decide)] at h
  exact h

/-- **C3.**  Per decode step: an exhaustion (`IOException`) on side 0
propagates immediately — independently of anything side 1 would do; an
exhaustion on side 1 (side 0 not having exhausted) propagates as well; if
both sides fail structurally in the same step the loop throws
`"Failure detected"`, a plain `RawspeedException`; a thrown exception
leaving the loop is absorbed into a normal, non-finding `return 0`. -/
theorem C3_step_failure_classes (impl0 impl1 : HTImpl) (t0 t1 : HTableData)
    (m : Bool) (b0 b1 : Pump) :
    (∀ msg, impl0.decode t0 m b0 = .error (.IOException msg) →
      workstep impl0 impl1 t0 t1 m b0 b1 = .thrown (.IOException msg)) ∧
    (∀ msg, (∀ msg0, impl0.decode t0 m b0 ≠ .error (.IOException msg0)) →
      impl1.decode t1 m b1 = .error (.IOException msg) →
      workstep impl0 impl1 t0 t1 m b0 b1 = .thrown (.IOException msg)) ∧
    (∀ m0 m1, impl0.decode t0 m b0 = .error (.OtherException m0) →
      impl1.decode t1 m b1 = .error (.OtherException m1) →
      workstep impl0 impl1 t0 t1 m b0 b1 =
        .thrown (.OtherException "Failure detected")) ∧
    (∀ (n : Nat) (e : Exc), workstep impl0 impl1 t0 t1 m b0 b1 = .thrown e →
      workloopAux impl0 impl1 t0 t1 m (n + 1) b0 b1 = some (.thrown e)) ∧
    (∀ (kind : PumpKind) (fuel : Nat) (bs0 bs1 : ByteStream) (e : Exc),
      checkHuffmanTable impl0 impl1 kind fuel bs0 bs1 t0 t1 =
        some (.thrown e) →
      runPump impl0 impl1 fuel t0 t1 kind bs0 bs1 = some (.ret 0)) := by
  refine ⟨?_, ?_, ?_, ?_, ?_⟩
  · intro msg h
    unfold workstep
    rw [h]
  · intro msg hno h1
    cases hr : impl0.decode t0 m b0 with
    | ok p =>
      obtain ⟨d0, b0x⟩ := p
      unfold workstep
      rw [hr, h1]
    | error e =>
      cases e with
      | IOException m0 => exact absurd hr (hno m0)
      | OtherException m0 =>
        unfold workstep
        rw [hr, h1]
  · intro m0 m1 h0 h1
    unfold workstep
    rw [h0, h1]
  · exact fun n e h => workloopAux_thrown h
  · exact fun kind fuel bs0 bs1 e h => runPump_thrown h

/-- Witness for C3: a side-0 decode exhaustion is rethrown unchanged. -/
theorem C3_witness :
    workstep implDecodeDepleted (implDecodeConst 5) goodTable goodTable true
        somePump somePump = .thrown (.IOException "stream depleted") :=
  (C3_step_failure_classes implDecodeDepleted (implDecodeConst 5) goodTable
      goodTable true somePump somePump).1 "stream depleted" rfl

/-- **C4, counterexample.**  The claim says exhaustion-class construction
failures "are not caught by the construction-comparison logic".  But the
clause guarding each construction attempt, `catch (const
rawspeed::RawspeedException&)`, does handle an `IOException` (which derives
from `RawspeedException`): the exhaustion is recorded as `failureN` and
compared, not re-propagated. -/
theorem C4_counterexample :
    constructionCatchHandles (Exc.IOException "getBuffer: buffer depleted") =
      true :=
  rfl

/-- **C4, amended.**  An exhaustion-class construction failure on either
side *is* caught and classified as a construction failure like a structural
one; since both sides read the same header bytes, the opposite side then
necessarily fails too, so `failure0 == failure1` holds and the invocation
ends as the valid non-finding rejection `return 0` — never as a divergence
finding and never as a silently accepted input. -/
theorem C4_construction_exhaustion_nonfinding (impl0 impl1 : HTImpl)
    (fuel : Nat) (data : List Nat) (m : String) :
    (createHuffmanTable impl0 ⟨data, 0⟩ = .error (.IOException m) →
      LLVMFuzzerTestOneInput impl0 impl1 fuel data = some (.ret 0)) ∧
    (createHuffmanTable impl1 ⟨data, 0⟩ = .error (.IOException m) →
      LLVMFuzzerTestOneInput impl0 impl1 fuel data = some (.ret 0)) := by
  constructor
  · intro h0
    cases h1 : createHuffmanTable impl1 (⟨data, 0⟩ : ByteStream) with
    | error e1 => exact entry_both_fail h0 h1
    | ok r1 =>
      obtain ⟨t, c⟩ := r1
      exact absurd h0 (createHuffmanTable_ok_no_io h1)
  · intro h1
    cases h0 : createHuffmanTable impl0 (⟨data, 0⟩ : ByteStream) with
    | error e0 => exact entry_both_fail h0 h1
    | ok r0 =>
      obtain ⟨t, c⟩ := r0
      exact absurd h1 (createHuffmanTable_ok_no_io h0)

/-- Witness for the amended C4: a 17-byte buffer whose counts announce 16
values exhausts during construction, and the invocation returns 0. -/
theorem C4_witness :
    LLVMFuzzerTestOneInput implAcceptAll implAcceptAll 1 truncatedData =
      some (.ret 0) :=
  (C4_construction_exhaustion_nonfinding implAcceptAll implAcceptAll 1
      truncatedData "getBuffer: buffer depleted").1 rfl

/-- **C5.**  Once both constructions succeed, the harness reads one selector
byte from cursor 0 and skips exactly one byte on cursor 1 (both sides
continue at position `c.pos + 1`); selector 0 dispatches the single-bit
MSB-first pump, 1 the 32-bit-batched MSB pump, 2 the byte-stuffing-aware
JPEG pump — the one `PumpKind` shared by both sides — and any other value
throws `UnknownPump`, absorbed into the non-finding `return 0`; if the
selector byte itself is past the end of the buffer, the invocation also
returns 0. -/
theorem C5_selector_dispatch (impl0 impl1 : HTImpl) (fuel : Nat)
    (data : List Nat) (t t' : HTableData) (c c' : ByteStream)
    (h0 : createHuffmanTable impl0 ⟨data, 0⟩ = .ok (t, c))
    (h1 : createHuffmanTable impl1 ⟨data, 0⟩ = .ok (t', c')) :
    (¬ c.pos < data.length →
      LLVMFuzzerTestOneInput impl0 impl1 fuel data = some (.ret 0)) ∧
    (c.pos < data.length →
      LLVMFuzzerTestOneInput impl0 impl1 fuel data =
        selectPump impl0 impl1 fuel t t' (data.getD c.pos 0 % 256)
          ⟨data, c.pos + 1⟩ ⟨data, c.pos + 1⟩) ∧
    (∀ (sel : Nat) (bs0 bs1 : ByteStream),
      (sel = 0 → selectPump impl0 impl1 fuel t t' sel bs0 bs1 =
        runPump impl0 impl1 fuel t t' .BitPumpMSB bs0 bs1) ∧
      (sel = 1 → selectPump impl0 impl1 fuel t t' sel bs0 bs1 =
        runPump impl0 impl1 fuel t t' .BitPumpMSB32 bs0 bs1) ∧
      (sel = 2 → selectPump impl0 impl1 fuel t t' sel bs0 bs1 =
        runPump impl0 impl1 fuel t t' .BitPumpJPEG bs0 bs1) ∧
      (2 < sel → selectPump impl0 impl1 fuel t t' sel bs0 bs1 =
        some (.ret 0))) := by
  refine ⟨?_, ?_, ?_⟩
  · intro hge
    rw [entry_ok_dispatch h0 h1, if_neg hge]
  · intro hlt
    rw [entry_ok_dispatch h0 h1, if_pos hlt]
  · intro sel bs0 bs1
    refine ⟨?_, ?_, ?_, ?_⟩
    · rintro rfl; rfl
    · rintro rfl; rfl
    · rintro rfl; rfl
    · intro hgt
      obtain ⟨k, rfl⟩ : ∃ k, sel = k + 3 := ⟨sel - 3, by omega⟩
      rfl

/-- Witness for C5: on `goodData` (selector byte 0 at offset 19) the
invocation dispatches the MSB pump with both cursors at offset 20. -/
theorem C5_witness :
    LLVMFuzzerTestOneInput implAcceptAll implAcceptAll 2 goodData =
      runPump implAcceptAll implAcceptAll 2 goodTable goodTable .BitPumpMSB
        ⟨goodData, 20⟩ ⟨goodData, 20⟩ := by
  have h := C5_selector_dispatch implAcceptAll implAcceptAll 2 goodData
      goodTable goodTable ⟨goodData, 19⟩ ⟨goodData, 19⟩ rfl rfl
  rw [h.2.1 (by decide)]
  show selectPump implAcceptAll implAcceptAll 2 goodTable goodTable 0
      ⟨goodData, 20⟩ ⟨goodData, 20⟩ = _
  exact (h.2.2 0 ⟨goodData, 20⟩ ⟨goodData, 20⟩).1 rfl

/-- **C6.**  With the cursors aligned, `checkHuffmanTable` requires the two
instances' full-decode flags to be equal — a mismatch is the divergence
`ht0.isFullDecode() == ht1.isFullDecode()` — and when they are equal it runs
the decode loop with that shared mode (`t0.fullDecode`) fixed for the whole
invocation. -/
theorem C6_full_decode_mode (impl0 impl1 : HTImpl) (kind : PumpKind)
    (fuel : Nat) (bs0 bs1 : ByteStream) (t0 t1 : HTableData)
    (hpos : bs0.getPosition = bs1.getPosition) :
    (t0.fullDecode ≠ t1.fullDecode →
      checkHuffmanTable impl0 impl1 kind fuel bs0 bs1 t0 t1 =
        some (.diverged "ht0.isFullDecode() == ht1.isFullDecode()")) ∧
    (t0.fullDecode = t1.fullDecode →
      checkHuffmanTable impl0 impl1 kind fuel bs0 bs1 t0 t1 =
        workloop impl0 impl1 t0 t1 kind t0.fullDecode fuel bs0 bs1) :=
  ⟨fun hflag => checkHuffmanTable_flag_mismatch hpos hflag,
   fun hflag => checkHuffmanTable_run hpos hflag⟩

/-- Witness for C6: tables parsed to different full-decode flags are a
divergence. -/
theorem C6_witness :
    checkHuffmanTable implAcceptAll implAcceptAll .BitPumpMSB 1
        ⟨goodData, 20⟩ ⟨goodData, 20⟩ goodTable tableNotFull =
      some (.diverged "ht0.isFullDecode() == ht1.isFullDecode()") :=
  (C6_full_decode_mode implAcceptAll implAcceptAll .BitPumpMSB 1
      ⟨goodData, 20⟩ ⟨goodData, 20⟩ goodTable tableNotFull rfl).1 (by decide)

/-- **C7.**  Both cursors start at position 0 over the same bytes; when both
constructions succeed the cursors are at equal positions (the checkpoint
after header parsing), and after the selector-byte handling — `getByte` on
cursor 0, `skipBytes 1` on cursor 1 — they are again at equal positions. -/
theorem C7_cursor_alignment (impl0 impl1 : HTImpl) (data : List Nat)
    (t t' : HTableData) (c c' : ByteStream)
    (h0 : createHuffmanTable impl0 ⟨data, 0⟩ = .ok (t, c))
    (h1 : createHuffmanTable impl1 ⟨data, 0⟩ = .ok (t', c')) :
    (ByteStream.mk data 0).getPosition = 0 ∧
    c.getPosition = c'.getPosition ∧
    (∀ (sel : Nat) (ds0 ds1 : ByteStream),
      c.getByte = .ok (sel, ds0) → c'.skipBytes 1 = .ok ds1 →
      ds0.getPosition = ds1.getPosition) := by
  obtain ⟨hteq, hceq⟩ := createHuffmanTable_pair_ok h0 h1
  subst hteq
  subst hceq
  refine ⟨rfl, rfl, ?_⟩
  intro sel ds0 ds1 hget hskip
  obtain ⟨_, hds0, _⟩ := getByte_ok hget
  obtain ⟨hds1, _⟩ := skipBytes_ok hskip
  rw [hds0, hds1]

/-- Witness for C7: on `goodData` both checkpoints hold concretely, the
second with both cursors at offset 20. -/
theorem C7_witness :
    (ByteStream.mk goodData 0).getPosition = 0 ∧
    (ByteStream.mk goodData 19).getPosition =
      (ByteStream.mk goodData 19).getPosition ∧
    (ByteStream.mk goodData 20).getPosition =
      (ByteStream.mk goodData 20).getPosition := by
  have h := C7_cursor_alignment implAcceptAll implAcceptAll goodData
      goodTable goodTable ⟨goodData, 19⟩ ⟨goodData, 19⟩ rfl rfl
  exact ⟨h.1, h.2.1, h.2.2 0 ⟨goodData, 20⟩ ⟨goodData, 20⟩ rfl rfl⟩

/-- **C8, counterexample.**  The claim says input with fewer than 19 usable
bytes "is rejected via Exhaustion".  A buffer of sixteen zero count bytes
(15 bytes short of nothing — 16 bytes total, fewer than 19) is rejected
*structurally*: the all-zero codes-per-length table is thrown as a plain
`RawspeedException` before any further byte is read, not as an
`IOException`. -/
theorem C8_counterexample :
    (List.replicate 16 0).length < 19 ∧
    createHuffmanTable implAcceptAll ⟨List.replicate 16 0, 0⟩ =
      .error (.OtherException "Codes-per-length table is empty") ∧
    (∀ m, createHuffmanTable implAcceptAll ⟨List.replicate 16 0, 0⟩ ≠
      .error (.IOException m)) := by
  refine ⟨by decide, rfl, ?_⟩
  intro m h
  rw [(rfl : createHuffmanTable implAcceptAll ⟨List.replicate 16 0, 0⟩ =
      .error (.OtherException "Codes-per-length table is empty"))] at h
  cases h

/-- **C8, amended.**  Any buffer with fewer than 19 usable bytes is always
rejected before the decode loop — the construction fails (via Exhaustion
*or* a structural failure such as an all-zero count table) on both sides
and the invocation returns 0, never silently accepting the input; and
whenever a construction succeeds, at least 19 bytes have been consumed from
its cursor. -/
theorem C8_min_input (impl0 impl1 : HTImpl) (fuel : Nat)
    (data : List Nat) :
    (data.length < 19 →
      LLVMFuzzerTestOneInput impl0 impl1 fuel data = some (.ret 0) ∧
      ∀ (impl : HTImpl) (t : HTableData) (c : ByteStream),
        createHuffmanTable impl ⟨data, 0⟩ ≠ .ok (t, c)) ∧
    (∀ (impl : HTImpl) (t : HTableData) (c : ByteStream),
      createHuffmanTable impl ⟨data, 0⟩ = .ok (t, c) →
      19 ≤ c.getPosition) := by
  constructor
  · intro hshort
    have hfail : ∀ (impl : HTImpl) (t : HTableData) (c : ByteStream),
        createHuffmanTable impl ⟨data, 0⟩ ≠ .ok (t, c) := by
      intro impl t c
      exact createHuffmanTable_short (by simpa using hshort)
    refine ⟨?_, hfail⟩
    cases h0 : createHuffmanTable impl0 (⟨data, 0⟩ : ByteStream) with
    | error e0 =>
      cases h1 : createHuffmanTable impl1 (⟨data, 0⟩ : ByteStream) with
      | error e1 => exact entry_both_fail h0 h1
      | ok r1 =>
        obtain ⟨t, c⟩ := r1
        exact absurd h1 (hfail impl1 t c)
    | ok r0 =>
      obtain ⟨t, c⟩ := r0
      exact absurd h0 (hfail impl0 t c)
  · intro impl t c h
    obtain ⟨_, _, _, _, hc, hs, _⟩ := createHuffmanTable_ok h
    rw [hc]
    simp only [ByteStream.getPosition]
    omega

/-- Witness for the amended C8: the 16-byte all-zero buffer is rejected with
`return 0`. -/
theorem C8_witness :
    LLVMFuzzerTestOneInput implAcceptAll implAcceptAll 1
        (List.replicate 16 0) = some (.ret 0) :=
  ((C8_min_input implAcceptAll implAcceptAll 1 (List.replicate 16 0)).1
    (by decide)).1

/-- **C9.**  The harness outcome is a deterministic function of the buffer
bytes alone: in this embedding the entry point is a pure function of the
byte list (plus the fixed implementation pair and fuel), so identical
buffer content yields identical outcomes — the same return/abort
classification and the same violated check on divergence. -/
theorem C9_determinism (impl0 impl1 : HTImpl) (fuel : Nat)
    (data1 data2 : List Nat) (h : data1 = data2) :
    LLVMFuzzerTestOneInput impl0 impl1 fuel data1 =
      LLVMFuzzerTestOneInput impl0 impl1 fuel data2 := by
  rw [h]

/-- Witness for C9: two runs on `goodData` give the same outcome. -/
theorem C9_witness :
    LLVMFuzzerTestOneInput (implDecodeConst 5) (implDecodeConst 5) 2
        goodData =
      LLVMFuzzerTestOneInput (implDecodeConst 5) (implDecodeConst 5) 2
        goodData :=
  C9_determinism (implDecodeConst 5) (implDecodeConst 5) 2 goodData goodData
    rfl

/-- **C10.**  Whenever the entry point returns normally (outcome
`Outcome.ret`), the returned value is 0: every non-finding exit path — both
constructions failing, an unknown selector, or an exception absorbed by the
outermost handler — returns 0.  (That the fall-through after the dispatch is
unreachable is captured structurally: `LoopExit` has no normal-completion
constructor, so after both constructions succeed the only outcomes are a
thrown exception — `return 0` — an abort, or continued looping.) -/
theorem C10_return_value_zero (impl0 impl1 : HTImpl) (fuel : Nat)
    (data : List Nat) (n : Int)
    (h : LLVMFuzzerTestOneInput impl0 impl1 fuel data = some (.ret n)) :
    n = 0 := by
  cases h0 : createHuffmanTable impl0 (⟨data, 0⟩ : ByteStream) with
  | error e0 =>
    cases h1 : createHuffmanTable impl1 (⟨data, 0⟩ : ByteStream) with
    | error e1 =>
      rw [entry_both_fail h0 h1] at h
      cases h
      rfl
    | ok r1 =>
      rw [entry_construction_mismatch
        (by rw [h0, h1]; simp [constructionSucceeded])] at h
      cases h
  | ok r0 =>
    obtain ⟨t, c⟩ := r0
    cases h1 : createHuffmanTable impl1 (⟨data, 0⟩ : ByteStream) with
    | error e1 =>
      rw [entry_construction_mismatch
        (by rw [h0, h1]; simp [constructionSucceeded])] at h
      cases h
    | ok r1 =>
      obtain ⟨t', c'⟩ := r1
      rw [entry_ok_dispatch h0 h1] at h
      by_cases hlt : c.pos < data.length
      · rw [if_pos hlt] at h
        exact selectPump_ret h
      · rw [if_neg hlt] at h
        cases h
        rfl

/-- Witness for C10: the empty buffer takes a non-finding path and indeed
returns 0. -/
theorem C10_witness :
    LLVMFuzzerTestOneInput implAcceptAll implAcceptAll 1 [] =
      some (.ret 0) ∧ (0 : Int) = 0 :=
  ⟨by decide,
   C10_return_value_zero implAcceptAll implAcceptAll 1 [] 0 (by decide)⟩

end DualHuffman
